import Mathlib

/-
Shallow embedding of the CoffeeShop backend (src/backend/src/app.py): a small
Flask CRUD service over a drinks table, with five routes, a bearer-token
authorization decorator, and four JSON error handlers.

The files src/backend/src/database/models.py and src/backend/src/auth/auth.py
are imported by app.py but are not present under src/; the definitions taken
from them are modelled from the spec and are marked as such in their doc
comments.  Everything else is translated directly from app.py.
-/

set_option autoImplicit false

namespace CoffeeShop

/-- JSON values, as produced by the json module and jsonify in app.py. -/
inductive Json where
  | null
  | bool (b : Bool)
  | num (n : Int)
  | str (s : String)
  | arr (elems : List Json)
  | obj (fields : List (String × Json))

/-- String rendering of a JSON value, mirroring json.dumps as used in app.py
(in particular json.dumps of a missing or null recipe yields the string
"null", which update_drinks compares against). -/
def dumps : Json → String
  | .null => "null"
  | .bool true => "true"
  | .bool false => "false"
  | .num n => toString n
  | .str s => "\"" ++ s ++ "\""
  | .arr elems =>
      "[" ++ String.intercalate ", " (elems.attach.map (fun e => dumps e.1)) ++ "]"
  | .obj fields =>
      "\x7b" ++ String.intercalate ", "
        (fields.attach.map (fun f => "\"" ++ f.1.1 ++ "\": " ++ dumps f.1.2)) ++ "\x7d"
decreasing_by
  · have := List.sizeOf_lt_of_mem e.2
    simp only [Json.arr.sizeOf_spec]
    omega
  · have h1 := List.sizeOf_lt_of_mem f.2
    have h2 : sizeOf f.1.2 < sizeOf f.1 := by
      rcases f with ⟨⟨a, b⟩, hf⟩
      simp
    simp only [Json.obj.sizeOf_spec]
    omega

/-- A dictionary lookup on a JSON object field list, mirroring Python dict
membership on the parsed request body. -/
def Json.getKey (j : Json) (key : String) : Option Json :=
  match j with
  | .obj fields => fields.lookup key
  | _ => none

/-- Modelled from the spec: database/models.py is not under src/.  A row of
the drinks table (the spec: "a catalog of drink records" persisted by "a
relational store"); id is the autoincrement primary key, title comes from the
request JSON and recipe is stored as a JSON string (app.py stores
json.dumps of the request recipe into it). -/
structure Drink where
  id : Nat
  title : Json
  recipe : String

/-- Modelled from the spec: Drink.short of database/models.py is not under
src/; the spec and app.py docstrings call it "the drink.short() data
representation" returned by GET /drinks. -/
def Drink.short (d : Drink) : Json :=
  .obj [("id", .num d.id), ("title", d.title)]

/-- Modelled from the spec: Drink.long of database/models.py is not under
src/; the spec and app.py docstrings call it "the drink.long() data
representation" with the full recipe. -/
def Drink.long (d : Drink) : Json :=
  .obj [("id", .num d.id), ("title", d.title), ("recipe", .str d.recipe)]

/-- The drinks table: the rows of the relational store, in insertion order. -/
abbrev Table := List Drink

/-- Modelled from the spec: the autoincrement primary key assigned by the
relational store on insert — one larger than the largest id in the table. -/
def nextId (db : Table) : Nat :=
  (db.map Drink.id).foldr max 0 + 1

/-- Drink.query.filter(Drink.id == drink_id).first(): the first row whose id
matches. -/
def firstById (i : Nat) (db : Table) : Option Drink :=
  db.find? (fun d => d.id == i)

/-- Committing a mutation of the row found by firstById (drink.update() in
update_drinks): the first row with the given id is replaced, all other rows
are untouched. -/
def replaceById (i : Nat) (d' : Drink) : Table → Table
  | [] => []
  | d :: rest => if d.id = i then d' :: rest else d :: replaceById i d' rest

/-- drink.delete() on the row found by firstById: the first row with the
given id is removed. -/
def deleteById (i : Nat) : Table → Table
  | [] => []
  | d :: rest => if d.id = i then rest else d :: deleteById i rest

/-- Insertion step of sorting by id. -/
def insById (d : Drink) : Table → Table
  | [] => [d]
  | x :: xs => if d.id ≤ x.id then d :: x :: xs else x :: insById d xs

/-- Drink.query.order_by(Drink.id).all(): the rows sorted by id. -/
def sortById : Table → Table
  | [] => []
  | x :: xs => insById x (sortById xs)

/-- Modelled from the spec: db_drop_and_create_all of database/models.py is
not under src/; app.py documents it as "THIS WILL DROP ALL RECORDS AND START
YOUR DB FROM SCRATCH", i.e. it leaves the drinks table empty. -/
def db_drop_and_create_all (_ : Table) : Table := []

/-- Application startup (module initialization of app.py): setup_db followed
by the unconditional db_drop_and_create_all() call at line 18. -/
def startupTable (db : Table) : Table :=
  db_drop_and_create_all db

/- ### Authorization (auth/auth.py, absent from src/; modelled from the spec) -/

/-- Modelled from the spec: auth/auth.py is not under src/.  The claims a
bearer token carries after decoding: whether its signature, issuer and
audience verified, and the list of permission scopes in its payload. -/
structure Token where
  valid : Bool
  permissions : List String

/-- Modelled from the spec: the AuthError raised by auth/auth.py when the
authorization header is missing, the token claims do not verify, or the
required permission scope is absent from the payload. -/
inductive AuthError where
  | missingHeader
  | invalidClaims
  | forbidden
deriving DecidableEq

/-- Modelled from the spec: the requires_auth decorator of auth/auth.py —
"decoding a bearer token, validating its signature/issuer/audience, and
checking it carries a required permission scope".  On success it hands the
decoded payload to the wrapped handler; on failure it raises AuthError and
the handler body never runs. -/
def requires_auth (permission : String) (auth : Option Token) : Except AuthError Token :=
  match auth with
  | none => .error .missingHeader
  | some t =>
      if !t.valid then .error .invalidClaims
      else if t.permissions.contains permission then .ok t
      else .error .forbidden

/- ### Responses and error handlers (app.py lines 164-203) -/

/-- An HTTP response: status code and JSON body. -/
structure Response where
  status : Nat
  body : Json

/-- app.errorhandler(422): the fixed "unprocessable" JSON body. -/
def unprocessable : Response :=
  ⟨422, .obj [("success", .bool false), ("error", .num 422),
              ("message", .str "unprocessable")]⟩

/-- app.errorhandler(404): the fixed "resource not found" JSON body. -/
def not_found : Response :=
  ⟨404, .obj [("success", .bool false), ("error", .num 404),
              ("message", .str "resource not found")]⟩

/-- app.errorhandler(400): the fixed "bad request" JSON body. -/
def badrequest : Response :=
  ⟨400, .obj [("success", .bool false), ("error", .num 400),
              ("message", .str "bad request")]⟩

/-- app.errorhandler(500): the fixed "Internal Server Error" JSON body. -/
def internalservererror : Response :=
  ⟨500, .obj [("success", .bool false), ("error", .num 500),
              ("message", .str "Internal Server Error")]⟩

/-- The table of registered error handlers: app.py registers exactly the
handlers for 422, 404, 400 and 500. -/
def errorHandlerFor (code : Nat) : Option Response :=
  if code = 422 then some unprocessable
  else if code = 404 then some not_found
  else if code = 400 then some badrequest
  else if code = 500 then some internalservererror
  else none

/-- The response the framework produces for abort(code): the registered
error handler for that status code. -/
def errorResponse (code : Nat) : Response :=
  (errorHandlerFor code).getD ⟨code, .null⟩

/-- Modelled from the spec: app.py registers no handler for AuthError, so an
AuthError raised by the requires_auth decorator propagates to the framework,
which turns an unhandled exception into status 500 and renders it through the
registered 500 handler.  Which status the rejection carries is immaterial to
the claims; what matters is that the wrapped handler body never runs. -/
def authErrorResponse (_ : AuthError) : Response :=
  internalservererror

/- ### Route handlers (app.py lines 31-161) -/

/-- The exceptions a handler body can raise: abort(code) raises an
HTTPException carrying the status code (a subclass of Exception, hence caught
by the except Exception clauses), and operations on a missing or non-dict
request body raise AttributeError. -/
inductive Exn where
  | httpException (code : Nat)
  | attributeError
deriving DecidableEq

/-- flask.abort: raises an HTTPException with the given status code. -/
def abortExn {α : Type} (code : Nat) : Except Exn α :=
  .error (.httpException code)

/-- request.get_json() followed by use as a dict: yields the parsed JSON
object of the request, and raises when the request carries no JSON body. -/
def getJsonDict (reqBody : Option Json) : Except Exn (List (String × Json)) :=
  match reqBody with
  | some (.obj fields) => .ok fields
  | _ => .error .attributeError

/-- body.get(key, default) on the parsed request dict. -/
def dictGet (fields : List (String × Json)) (key : String) (dflt : Json) : Json :=
  (fields.lookup key).getD dflt

/-- The try/except wrapper every handler in app.py uses: the result of the
try block if no exception is raised, otherwise abort(failCode) rendered by
the registered error handler, with the table untouched.  No exception
escapes: the wrapper is total. -/
def runHandler (body : Except Exn (Json × Table)) (failCode : Nat) (db : Table) :
    Response × Table :=
  match body with
  | .ok (j, db') => (⟨200, j⟩, db')
  | .error _ => (errorResponse failCode, db)

/-- Try block of get_drinks (app.py lines 33-39): all rows ordered by id, in
their short representation. -/
def get_drinks_body (db : Table) : Except Exn (Json × Table) :=
  .ok (.obj [("success", .bool true),
             ("drinks", .arr ((sortById db).map Drink.short))], db)

/-- GET /drinks handler (app.py lines 31-41): public, no decorator; any
exception in the body yields abort(404). -/
def get_drinks (db : Table) : Response × Table :=
  runHandler (get_drinks_body db) 404 db

/-- Try block of get_drink_details (app.py lines 57-63): all rows ordered by
id, in their long representation. -/
def get_drink_details_body (db : Table) : Except Exn (Json × Table) :=
  .ok (.obj [("success", .bool true),
             ("drinks", .arr ((sortById db).map Drink.long))], db)

/-- GET /drinks-detail handler body (app.py lines 54-65), run after
requires_auth("get:drinks-detail"); any exception yields abort(404). -/
def get_drink_details (db : Table) : Response × Table :=
  runHandler (get_drink_details_body db) 404 db

/-- Try block of create_drinks (app.py lines 82-94): reads title and recipe
from the request JSON, inserts a new row with json.dumps of the recipe, and
returns the new row in long representation. -/
def create_drinks_body (db : Table) (reqBody : Option Json) :
    Except Exn (Json × Table) :=
  match getJsonDict reqBody with
  | .error e => .error e
  | .ok body =>
      let new_title := dictGet body "title" .null
      let new_recipe := dictGet body "recipe" .null
      let drink : Drink := ⟨nextId db, new_title, dumps new_recipe⟩
      .ok (.obj [("success", .bool true), ("drinks", .arr [drink.long])],
           db ++ [drink])

/-- POST /drinks handler body (app.py lines 79-96), run after
requires_auth("post:drinks"); any exception yields abort(422). -/
def create_drinks (db : Table) (reqBody : Option Json) : Response × Table :=
  runHandler (create_drinks_body db reqBody) 422 db

/-- The updated row computed by update_drinks (app.py lines 122-124):
title defaults to the current title when the key is absent, and the recipe is
overwritten only when json.dumps of the request recipe differs from the
string "null". -/
def updatedDrink (drink : Drink) (body : List (String × Json)) : Drink :=
  let newTitle := dictGet body "title" drink.title
  let recipe := dumps (dictGet body "recipe" .null)
  { drink with
    title := newTitle
    recipe := if recipe = "null" then drink.recipe else recipe }

/-- Try block of update_drinks (app.py lines 115-131): looks the row up by
id, aborts with 404 inside the try block when absent, otherwise mutates the
row and commits. -/
def update_drinks_body (db : Table) (reqBody : Option Json) (drink_id : Nat) :
    Except Exn (Json × Table) :=
  match getJsonDict reqBody with
  | .error e => .error e
  | .ok body =>
      match firstById drink_id db with
      | none => abortExn 404
      | some drink =>
          let drink' := updatedDrink drink body
          .ok (.obj [("success", .bool true), ("drinks", .arr [drink'.long])],
               replaceById drink_id drink' db)

/-- PATCH /drinks/<id> handler body (app.py lines 112-133), run after
requires_auth("patch:drinks"); any exception — including the HTTPException
raised by the inner abort(404) — yields abort(422). -/
def update_drinks (db : Table) (reqBody : Option Json) (drink_id : Nat) :
    Response × Table :=
  runHandler (update_drinks_body db reqBody drink_id) 422 db

/-- Try block of delete_drinks (app.py lines 151-159): looks the row up by
id, aborts with 404 inside the try block when absent, otherwise deletes the
row. -/
def delete_drinks_body (db : Table) (drink_id : Nat) :
    Except Exn (Json × Table) :=
  match firstById drink_id db with
  | none => abortExn 404
  | some _ =>
      .ok (.obj [("success", .bool true), ("delete", .num drink_id)],
           deleteById drink_id db)

/-- DELETE /drinks/<id> handler body (app.py lines 148-161), run after
requires_auth("delete:drinks"); any exception — including the HTTPException
raised by the inner abort(404) — yields abort(422). -/
def delete_drinks (db : Table) (drink_id : Nat) : Response × Table :=
  runHandler (delete_drinks_body db drink_id) 422 db

/- ### Request dispatch (the Flask routing of app.py) -/

/-- The HTTP methods app.py routes on. -/
inductive Method where
  | GET
  | POST
  | PATCH
  | DELETE
deriving DecidableEq

/-- The URL paths of the service: /drinks, /drinks-detail, and
/drinks/<int:drink_id>, plus anything else. -/
inductive Path where
  | drinks
  | drinksDetail
  | drinksId (drink_id : Nat)
  | otherPath (p : String)
deriving DecidableEq

/-- An incoming HTTP request: method, path, the decoded bearer token of the
Authorization header (none when the header is absent), and the parsed JSON
body (none when the request carries no JSON). -/
structure Request where
  method : Method
  path : Path
  auth : Option Token
  reqBody : Option Json

/-- The requires_auth decorator wrapping a handler: the handler body runs
only when the permission check succeeds; otherwise the AuthError rejection is
returned and the table is untouched. -/
def withAuth (permission : String) (auth : Option Token) (db : Table)
    (handler : Token → Response × Table) : Response × Table :=
  match requires_auth permission auth with
  | .error e => (authErrorResponse e, db)
  | .ok payload => handler payload

/-- Flask request dispatch over the routes registered in app.py.  A request
matching no registered route is answered by the framework with an error
response and leaves the table untouched (the framework distinction between
404 and 405 for such requests is outside app.py and not load-bearing for any
claim). -/
def dispatch (db : Table) (req : Request) : Response × Table :=
  match req.method, req.path with
  | .GET, .drinks => get_drinks db
  | .GET, .drinksDetail =>
      withAuth "get:drinks-detail" req.auth db (fun _ => get_drink_details db)
  | .POST, .drinks =>
      withAuth "post:drinks" req.auth db (fun _ => create_drinks db req.reqBody)
  | .PATCH, .drinksId i =>
      withAuth "patch:drinks" req.auth db (fun _ => update_drinks db req.reqBody i)
  | .DELETE, .drinksId i =>
      withAuth "delete:drinks" req.auth db (fun _ => delete_drinks db i)
  | _, _ => (errorResponse 404, db)

/-- A URL pattern of a registered route. -/
inductive PathPattern where
  | drinks
  | drinksDetail
  | drinksId
deriving DecidableEq

/-- Whether a concrete path matches a route pattern. -/
def patternMatches : PathPattern → Path → Bool
  | .drinks, .drinks => true
  | .drinksDetail, .drinksDetail => true
  | .drinksId, .drinksId _ => true
  | _, _ => false

/-- A registered route: method, URL pattern, and the permission scope of its
requires_auth decorator (none for the public route). -/
structure RouteSpec where
  method : Method
  pattern : PathPattern
  scope : Option String

/-- The routes registered in app.py, in source order (lines 31, 54, 79, 112,
148). -/
def routes : List RouteSpec :=
  [⟨.GET, .drinks, none⟩,
   ⟨.GET, .drinksDetail, some "get:drinks-detail"⟩,
   ⟨.POST, .drinks, some "post:drinks"⟩,
   ⟨.PATCH, .drinksId, some "patch:drinks"⟩,
   ⟨.DELETE, .drinksId, some "delete:drinks"⟩]

/-- Whether two methods coincide. -/
def methodMatches : Method → Method → Bool
  | .GET, .GET => true
  | .POST, .POST => true
  | .PATCH, .PATCH => true
  | .DELETE, .DELETE => true
  | _, _ => false

/-- Route lookup: the first registered route matching method and path. -/
def findRoute (m : Method) (p : Path) : Option RouteSpec :=
  routes.find? (fun r => methodMatches r.method m && patternMatches r.pattern p)

/- ### Helper lemmas about the table operations -/

theorem mem_insById (x d : Drink) (l : Table) :
    x ∈ insById d l ↔ x = d ∨ x ∈ l := by
  induction l with
  | nil => simp [insById]
  | cons a l ih =>
      by_cases h : d.id ≤ a.id
      · simp [insById, h, List.mem_cons]
      · simp [insById, h, List.mem_cons, ih]
        tauto

theorem mem_sortById (x : Drink) (l : Table) :
    x ∈ sortById l ↔ x ∈ l := by
  induction l with
  | nil => simp [sortById]
  | cons a l ih =>
      simp [sortById, mem_insById, ih, List.mem_cons]

theorem firstById_decomp (i : Nat) (l : Table) (d d' : Drink)
    (h : firstById i l = some d) :
    d.id = i ∧ ∃ pre post, l = pre ++ d :: post ∧
      replaceById i d' l = pre ++ d' :: post ∧
      deleteById i l = pre ++ post := by
  induction l with
  | nil => simp [firstById] at h
  | cons a l ih =>
      by_cases ha : a.id = i
      · have hfind : firstById i (a :: l) = some a :=
          List.find?_cons_of_pos _ (by simp [ha])
        rw [hfind] at h
        obtain rfl : a = d := by injection h
        refine ⟨ha, [], l, rfl, ?_, ?_⟩
        · simp [replaceById, ha]
        · simp [deleteById, ha]
      · have hfind : firstById i (a :: l) = firstById i l :=
          List.find?_cons_of_neg _ (by simp [ha])
        rw [hfind] at h
        obtain ⟨hid, pre, post, hl, hrep, hdel⟩ := ih h
        refine ⟨hid, a :: pre, post, by simp [hl], ?_, ?_⟩
        · simp [replaceById, ha, hrep]
        · simp [deleteById, ha, hdel]

theorem deleteById_id_ne (i : Nat) (l : Table)
    (hnd : (l.map Drink.id).Nodup) :
    ∀ x ∈ deleteById i l, x.id ≠ i := by
  induction l with
  | nil => simp [deleteById]
  | cons a l ih =>
      simp only [List.map_cons, List.nodup_cons] at hnd
      obtain ⟨hna, hnd⟩ := hnd
      by_cases ha : a.id = i
      · intro x hx hxi
        rw [deleteById, if_pos ha] at hx
        exact hna (by
          subst ha
          rw [← hxi]
          exact List.mem_map_of_mem Drink.id hx)
      · intro x hx hxi
        rw [deleteById, if_neg ha] at hx
        rcases List.mem_cons.mp hx with rfl | hx
        · exact ha hxi
        · exact ih hnd x hx hxi

/- ### The claims -/

/-- C1: Write, modify and delete access is role-gated: a handler wrapped in
requires_auth runs only when the bearer token is valid and carries the
required scope ("post:drinks" for POST /drinks, "patch:drinks" for
PATCH /drinks/<id>, "delete:drinks" for DELETE /drinks/<id>); a request
whose token lacks the required scope is rejected by the decorator before the
handler body executes and the drinks table is unchanged. -/
theorem C1_write_routes_role_gated :
    (∀ (s : String) (tok : Option Token) (p : Token),
       requires_auth s tok = .ok p →
       ∃ t, tok = some t ∧ t.valid = true ∧ t.permissions.contains s = true) ∧
    (∀ (db : Table) (tok : Option Token) (b : Option Json) (e : AuthError),
       requires_auth "post:drinks" tok = .error e →
       dispatch db ⟨.POST, .drinks, tok, b⟩ = (authErrorResponse e, db)) ∧
    (∀ (db : Table) (tok : Option Token) (b : Option Json) (i : Nat)
       (e : AuthError),
       requires_auth "patch:drinks" tok = .error e →
       dispatch db ⟨.PATCH, .drinksId i, tok, b⟩ = (authErrorResponse e, db)) ∧
    (∀ (db : Table) (tok : Option Token) (b : Option Json) (i : Nat)
       (e : AuthError),
       requires_auth "delete:drinks" tok = .error e →
       dispatch db ⟨.DELETE, .drinksId i, tok, b⟩ = (authErrorResponse e, db)) := by
  refine ⟨?_, ?_, ?_, ?_⟩
  · intro s tok p h
    match tok with
    | none => simp [requires_auth] at h
    | some t =>
        by_cases hv : t.valid = true
        · by_cases hc : t.permissions.contains s = true
          · exact ⟨t, rfl, hv, hc⟩
          · simp only [Bool.not_eq_true] at hc
            have hmem : s ∉ t.permissions := by simpa using hc
            simp [requires_auth, hv, hmem] at h
        · simp only [Bool.not_eq_true] at hv
          simp [requires_auth, hv] at h
  · intro db tok b e h
    simp [dispatch, withAuth, h]
  · intro db tok b i e h
    simp [dispatch, withAuth, h]
  · intro db tok b i e h
    simp [dispatch, withAuth, h]

/-- Witness for C1 at concrete inputs: a valid token whose scope list is
empty is rejected on POST and PATCH with the table untouched, a missing
header is rejected on DELETE, and a token accepted for POST carries the
"post:drinks" scope. -/
theorem C1_write_routes_role_gated_witness :
    (∃ t, (some ⟨true, ["post:drinks"]⟩ : Option Token) = some t ∧
       t.valid = true ∧ t.permissions.contains "post:drinks" = true) ∧
    dispatch [] ⟨.POST, .drinks, some ⟨true, []⟩, none⟩ =
      (authErrorResponse .forbidden, []) ∧
    dispatch [] ⟨.PATCH, .drinksId 1, some ⟨true, []⟩, none⟩ =
      (authErrorResponse .forbidden, []) ∧
    dispatch [] ⟨.DELETE, .drinksId 1, none, none⟩ =
      (authErrorResponse .missingHeader, []) :=
  ⟨C1_write_routes_role_gated.1 "post:drinks" (some ⟨true, ["post:drinks"]⟩)
      ⟨true, ["post:drinks"]⟩ rfl,
   C1_write_routes_role_gated.2.1 [] (some ⟨true, []⟩) none .forbidden rfl,
   C1_write_routes_role_gated.2.2.1 [] (some ⟨true, []⟩) none 1 .forbidden rfl,
   C1_write_routes_role_gated.2.2.2 [] none none 1 .missingHeader rfl⟩

/-- C2: Failure semantics are exactly "catch any exception, return a fixed
HTTP status code": whenever a handler body raises any exception, the handler
answers with the one fixed error status of its route — 404 for GET /drinks
and GET /drinks-detail, 422 for POST /drinks, PATCH /drinks/<id> and
DELETE /drinks/<id> — rendered by the registered error handler, with the
table untouched; no exception escapes a handler (every handler is a total
function into responses). -/
theorem C2_fixed_error_status_per_route :
    (∀ (db : Table) (e : Exn), get_drinks_body db = .error e →
       get_drinks db = (errorResponse 404, db)) ∧
    (∀ (db : Table) (e : Exn), get_drink_details_body db = .error e →
       get_drink_details db = (errorResponse 404, db)) ∧
    (∀ (db : Table) (b : Option Json) (e : Exn),
       create_drinks_body db b = .error e →
       create_drinks db b = (errorResponse 422, db)) ∧
    (∀ (db : Table) (b : Option Json) (i : Nat) (e : Exn),
       update_drinks_body db b i = .error e →
       update_drinks db b i = (errorResponse 422, db)) ∧
    (∀ (db : Table) (i : Nat) (e : Exn),
       delete_drinks_body db i = .error e →
       delete_drinks db i = (errorResponse 422, db)) := by
  refine ⟨?_, ?_, ?_, ?_, ?_⟩
  · intro db e h
    simp [get_drinks, runHandler, h]
  · intro db e h
    simp [get_drink_details, runHandler, h]
  · intro db b e h
    simp [create_drinks, runHandler, h]
  · intro db b i e h
    simp [update_drinks, runHandler, h]
  · intro db i e h
    simp [delete_drinks, runHandler, h]

/-- Witness for C2 at concrete inputs: a POST with no JSON body raises and
yields 422, a PATCH on an empty table raises (the inner abort(404)) and
yields 422, and so does a DELETE on an empty table. -/
theorem C2_fixed_error_status_per_route_witness :
    create_drinks [] none = (errorResponse 422, []) ∧
    update_drinks [] (some (.obj [])) 1 = (errorResponse 422, []) ∧
    delete_drinks [] 1 = (errorResponse 422, []) :=
  ⟨C2_fixed_error_status_per_route.2.2.1 [] none .attributeError rfl,
   C2_fixed_error_status_per_route.2.2.2.1 [] (some (.obj [])) 1
     (.httpException 404) rfl,
   C2_fixed_error_status_per_route.2.2.2.2 [] 1 (.httpException 404) rfl⟩

/-- C3: Read access is public: GET /drinks performs no authorization check,
so for a fixed table, two GET /drinks requests that differ only in their
Authorization header (including one with no token at all) get identical
responses. -/
theorem C3_get_drinks_public (db : Table) (a1 a2 : Option Token)
    (b : Option Json) :
    dispatch db ⟨.GET, .drinks, a1, b⟩ = dispatch db ⟨.GET, .drinks, a2, b⟩ :=
  rfl

/-- C4: CRUD round trip: after a successful POST /drinks, the created drink
in its short representation appears in the list returned by a subsequent
GET /drinks; and after a successful DELETE /drinks/<id> (on a table whose
primary keys are distinct), no drink with that id appears in the list
returned by a subsequent GET /drinks. -/
theorem C4_crud_round_trip :
    (∀ (db : Table) (tok : Option Token) (kvs : List (String × Json))
       (p : Token),
       requires_auth "post:drinks" tok = .ok p →
       (dispatch db ⟨.POST, .drinks, tok, some (.obj kvs)⟩).1.status = 200 ∧
       ∃ L, (dispatch (dispatch db ⟨.POST, .drinks, tok, some (.obj kvs)⟩).2
               ⟨.GET, .drinks, none, none⟩).1.body =
             .obj [("success", .bool true), ("drinks", .arr L)] ∧
         Drink.short ⟨nextId db, dictGet kvs "title" .null,
                      dumps (dictGet kvs "recipe" .null)⟩ ∈ L) ∧
    (∀ (db : Table) (tok : Option Token) (i : Nat) (d : Drink) (p : Token),
       requires_auth "delete:drinks" tok = .ok p →
       (db.map Drink.id).Nodup →
       firstById i db = some d →
       (dispatch db ⟨.DELETE, .drinksId i, tok, none⟩).1.status = 200 ∧
       ∃ L, (dispatch (dispatch db ⟨.DELETE, .drinksId i, tok, none⟩).2
               ⟨.GET, .drinks, none, none⟩).1.body =
             .obj [("success", .bool true), ("drinks", .arr L)] ∧
         ∀ j ∈ L, j.getKey "id" ≠ some (.num i)) := by
  constructor
  · intro db tok kvs p hauth
    have hdisp : dispatch db ⟨.POST, .drinks, tok, some (.obj kvs)⟩ =
        (⟨200, .obj [("success", .bool true),
            ("drinks", .arr [Drink.long ⟨nextId db, dictGet kvs "title" .null,
                                dumps (dictGet kvs "recipe" .null)⟩])]⟩,
         db ++ [⟨nextId db, dictGet kvs "title" .null,
                 dumps (dictGet kvs "recipe" .null)⟩]) := by
      simp [dispatch, withAuth, hauth, create_drinks, create_drinks_body,
            getJsonDict, runHandler]
    rw [hdisp]
    refine ⟨rfl, _, rfl, ?_⟩
    exact List.mem_map_of_mem Drink.short
      ((mem_sortById _ _).mpr (List.mem_append_right db (by simp)))
  · intro db tok i d p hauth hnd hfind
    have hdisp : dispatch db ⟨.DELETE, .drinksId i, tok, none⟩ =
        (⟨200, .obj [("success", .bool true), ("delete", .num i)]⟩,
         deleteById i db) := by
      simp [dispatch, withAuth, hauth, delete_drinks, delete_drinks_body,
            hfind, runHandler]
    rw [hdisp]
    refine ⟨rfl, _, rfl, ?_⟩
    intro j hj
    obtain ⟨x, hx, rfl⟩ := List.mem_map.mp hj
    have hxdel : x ∈ deleteById i db := (mem_sortById _ _).mp hx
    have hne : x.id ≠ i := deleteById_id_ne i db hnd x hxdel
    have hkey : (Drink.short x).getKey "id" = some (.num x.id) := rfl
    rw [hkey]
    intro hc
    apply hne
    have h1 : Json.num x.id = Json.num i := by injection hc
    have h2 : (x.id : Int) = (i : Int) := by injection h1
    exact_mod_cast h2

/-- Witness for C4 at concrete inputs: posting a drink to the empty table
puts its short form in the next GET /drinks list, and deleting drink 1 from
a one-row table leaves no row with id 1 in the next GET /drinks list. -/
theorem C4_crud_round_trip_witness :
    ((dispatch [] ⟨.POST, .drinks, some ⟨true, ["post:drinks"]⟩,
        some (.obj [])⟩).1.status = 200 ∧
     ∃ L, (dispatch (dispatch [] ⟨.POST, .drinks, some ⟨true, ["post:drinks"]⟩,
             some (.obj [])⟩).2 ⟨.GET, .drinks, none, none⟩).1.body =
           .obj [("success", .bool true), ("drinks", .arr L)] ∧
       Drink.short ⟨nextId [], dictGet [] "title" .null,
                    dumps (dictGet [] "recipe" .null)⟩ ∈ L) ∧
    ((dispatch [⟨1, .str "water", "r"⟩] ⟨.DELETE, .drinksId 1,
        some ⟨true, ["delete:drinks"]⟩, none⟩).1.status = 200 ∧
     ∃ L, (dispatch (dispatch [⟨1, .str "water", "r"⟩] ⟨.DELETE, .drinksId 1,
             some ⟨true, ["delete:drinks"]⟩, none⟩).2
             ⟨.GET, .drinks, none, none⟩).1.body =
           .obj [("success", .bool true), ("drinks", .arr L)] ∧
       ∀ j ∈ L, j.getKey "id" ≠ some (.num 1)) :=
  ⟨C4_crud_round_trip.1 [] (some ⟨true, ["post:drinks"]⟩) []
     ⟨true, ["post:drinks"]⟩ rfl,
   C4_crud_round_trip.2 [⟨1, .str "water", "r"⟩]
     (some ⟨true, ["delete:drinks"]⟩) 1 ⟨1, .str "water", "r"⟩
     ⟨true, ["delete:drinks"]⟩ rfl (by simp) rfl⟩

/-- C5: The service surface is exactly five routes — GET /drinks,
GET /drinks-detail, POST /drinks, PATCH /drinks/<id>, DELETE /drinks/<id> —
with the requires_auth decorator on four of them, and exactly the four JSON
error handlers for 400, 404, 422 and 500; a request matching none of the
registered routes is not handled by any route handler. -/
theorem C5_service_surface :
    routes.length = 5 ∧
    (routes.filter (fun r => r.scope.isSome)).length = 4 ∧
    findRoute .GET .drinks = some ⟨.GET, .drinks, none⟩ ∧
    findRoute .GET .drinksDetail =
      some ⟨.GET, .drinksDetail, some "get:drinks-detail"⟩ ∧
    findRoute .POST .drinks = some ⟨.POST, .drinks, some "post:drinks"⟩ ∧
    (∀ i, findRoute .PATCH (.drinksId i) =
      some ⟨.PATCH, .drinksId, some "patch:drinks"⟩) ∧
    (∀ i, findRoute .DELETE (.drinksId i) =
      some ⟨.DELETE, .drinksId, some "delete:drinks"⟩) ∧
    (∀ c : Nat, (errorHandlerFor c).isSome ↔
       (c = 400 ∨ c = 404 ∨ c = 422 ∨ c = 500)) ∧
    (∀ (db : Table) (req : Request),
       findRoute req.method req.path = none →
       dispatch db req = (errorResponse 404, db)) := by
  refine ⟨rfl, rfl, rfl, rfl, rfl, fun i => rfl, fun i => rfl, ?_, ?_⟩
  · intro c
    simp only [errorHandlerFor]
    split_ifs <;> simp_all
  · intro db req h
    obtain ⟨m, p, a, b⟩ := req
    cases m <;> cases p <;>
      first
      | rfl
      | simp [findRoute, routes, List.find?, patternMatches, methodMatches] at h

/-- Witness for C5 at a concrete input: a POST to /drinks-detail matches no
registered route and falls through to the framework error response. -/
theorem C5_service_surface_witness :
    dispatch [] ⟨.POST, .drinksDetail, none, none⟩ = (errorResponse 404, []) :=
  C5_service_surface.2.2.2.2.2.2.2.2 [] ⟨.POST, .drinksDetail, none, none⟩ rfl

/-- C6: Each registered error handler returns the status code it is
registered for, together with the fixed JSON body whose "error" field equals
that status code: "bad request" for 400, "resource not found" for 404,
"unprocessable" for 422 and "Internal Server Error" for 500, always with
"success" false. -/
theorem C6_error_handlers_fixed_bodies :
    ∀ (c : Nat) (r : Response), errorHandlerFor c = some r →
      r.status = c ∧
      r.body.getKey "success" = some (.bool false) ∧
      r.body.getKey "error" = some (.num c) ∧
      r.body.getKey "message" = some (.str
        (if c = 400 then "bad request"
         else if c = 404 then "resource not found"
         else if c = 422 then "unprocessable"
         else "Internal Server Error")) := by
  intro c r h
  simp only [errorHandlerFor] at h
  split_ifs at h with h1 h2 h3 h4
  · obtain rfl : unprocessable = r := by injection h
    subst h1
    exact ⟨rfl, rfl, rfl, rfl⟩
  · obtain rfl : not_found = r := by injection h
    subst h2
    exact ⟨rfl, rfl, rfl, rfl⟩
  · obtain rfl : badrequest = r := by injection h
    subst h3
    exact ⟨rfl, rfl, rfl, rfl⟩
  · obtain rfl : internalservererror = r := by injection h
    subst h4
    refine ⟨rfl, rfl, rfl, ?_⟩
    simp only [if_neg h1, if_neg h2, if_neg h3]
    rfl

/-- Witness for C6 at a concrete input: the handler registered for 422. -/
theorem C6_error_handlers_fixed_bodies_witness :
    unprocessable.status = 422 ∧
    unprocessable.body.getKey "success" = some (.bool false) ∧
    unprocessable.body.getKey "error" = some (.num 422) ∧
    unprocessable.body.getKey "message" = some (.str
      (if 422 = 400 then "bad request"
       else if 422 = 404 then "resource not found"
       else if 422 = 422 then "unprocessable"
       else "Internal Server Error")) :=
  C6_error_handlers_fixed_bodies 422 unprocessable rfl

/-- C7: Every endpoint is deterministic: for a fixed table, two identical
requests (same method, path, token and body) produce identical responses and
identical resulting tables. -/
theorem C7_dispatch_deterministic (db : Table) (r1 r2 : Request)
    (h : r1 = r2) :
    dispatch db r1 = dispatch db r2 := by
  rw [h]

/-- Witness for C7 at a concrete request. -/
theorem C7_dispatch_deterministic_witness :
    dispatch [] ⟨.GET, .drinks, none, none⟩ =
      dispatch [] ⟨.GET, .drinks, none, none⟩ :=
  C7_dispatch_deterministic [] ⟨.GET, .drinks, none, none⟩
    ⟨.GET, .drinks, none, none⟩ rfl

/-- C8: For an authorized PATCH /drinks/<id> or DELETE /drinks/<id> whose id
matches no row, the response is 422 with the "unprocessable" body, not 404:
the abort(404) raised inside the try block is an Exception, so the except
clause of the handler catches it and re-aborts with 422. -/
theorem C8_unknown_id_answered_422_not_404 :
    (∀ (db : Table) (tok : Option Token) (b : Option Json) (i : Nat)
       (p : Token),
       requires_auth "patch:drinks" tok = .ok p →
       firstById i db = none →
       dispatch db ⟨.PATCH, .drinksId i, tok, b⟩ = (unprocessable, db)) ∧
    (∀ (db : Table) (tok : Option Token) (b : Option Json) (i : Nat)
       (p : Token),
       requires_auth "delete:drinks" tok = .ok p →
       firstById i db = none →
       dispatch db ⟨.DELETE, .drinksId i, tok, b⟩ = (unprocessable, db)) ∧
    unprocessable.status = 422 := by
  refine ⟨?_, ?_, rfl⟩
  · intro db tok b i p hauth hfind
    simp only [dispatch, withAuth, hauth]
    rcases b with _ | j
    · simp [update_drinks, update_drinks_body, getJsonDict, runHandler,
            errorResponse, errorHandlerFor]
    · cases j <;>
        simp [update_drinks, update_drinks_body, getJsonDict, runHandler,
              errorResponse, errorHandlerFor, hfind, abortExn]
  · intro db tok b i p hauth hfind
    simp only [dispatch, withAuth, hauth]
    simp [delete_drinks, delete_drinks_body, hfind, abortExn, runHandler,
          errorResponse, errorHandlerFor]

/-- Witness for C8 at concrete inputs: an authorized PATCH and an authorized
DELETE for id 1 on the empty table both answer with the unprocessable body. -/
theorem C8_unknown_id_answered_422_not_404_witness :
    dispatch [] ⟨.PATCH, .drinksId 1, some ⟨true, ["patch:drinks"]⟩,
        some (.obj [])⟩ = (unprocessable, []) ∧
    dispatch [] ⟨.DELETE, .drinksId 1, some ⟨true, ["delete:drinks"]⟩,
        none⟩ = (unprocessable, []) :=
  ⟨C8_unknown_id_answered_422_not_404.1 [] (some ⟨true, ["patch:drinks"]⟩)
      (some (.obj [])) 1 ⟨true, ["patch:drinks"]⟩ rfl rfl,
   C8_unknown_id_answered_422_not_404.2.1 [] (some ⟨true, ["delete:drinks"]⟩)
      none 1 ⟨true, ["delete:drinks"]⟩ rfl rfl⟩

/-- C9: PATCH /drinks/<id> preserves omitted fields: on an authorized PATCH
of an existing drink, the table changes only at that one row; the row keeps
its id, keeps its title when the body has no "title" key, and keeps its
recipe when the body has no "recipe" key or that key is null. -/
theorem C9_patch_preserves_omitted_fields :
    ∀ (db : Table) (tok : Option Token) (kvs : List (String × Json)) (i : Nat)
      (d : Drink) (p : Token),
      requires_auth "patch:drinks" tok = .ok p →
      firstById i db = some d →
      ∃ pre post,
        db = pre ++ d :: post ∧
        (dispatch db ⟨.PATCH, .drinksId i, tok, some (.obj kvs)⟩).2 =
          pre ++ updatedDrink d kvs :: post ∧
        (updatedDrink d kvs).id = d.id ∧
        (kvs.lookup "title" = none → (updatedDrink d kvs).title = d.title) ∧
        ((kvs.lookup "recipe" = none ∨ kvs.lookup "recipe" = some .null) →
          (updatedDrink d kvs).recipe = d.recipe) := by
  intro db tok kvs i d p hauth hfind
  obtain ⟨hid, pre, post, hdb, hrep, -⟩ :=
    firstById_decomp i db d (updatedDrink d kvs) hfind
  refine ⟨pre, post, hdb, ?_, rfl, ?_, ?_⟩
  · have hdisp : (dispatch db ⟨.PATCH, .drinksId i, tok, some (.obj kvs)⟩).2 =
        replaceById i (updatedDrink d kvs) db := by
      simp [dispatch, withAuth, hauth, update_drinks, update_drinks_body,
            getJsonDict, runHandler, hfind]
    rw [hdisp, hrep]
  · intro ht
    simp [updatedDrink, dictGet, ht]
  · intro hr
    rcases hr with hr | hr <;> simp [updatedDrink, dictGet, hr, dumps]

/-- Witness for C9 at a concrete input: an authorized PATCH of drink 1 with
an empty JSON body leaves the single row unchanged in every field. -/
theorem C9_patch_preserves_omitted_fields_witness :
    ∃ pre post,
      ([⟨1, .str "water", "r"⟩] : Table) = pre ++ ⟨1, .str "water", "r"⟩ :: post ∧
      (dispatch [⟨1, .str "water", "r"⟩] ⟨.PATCH, .drinksId 1,
          some ⟨true, ["patch:drinks"]⟩, some (.obj [])⟩).2 =
        pre ++ updatedDrink ⟨1, .str "water", "r"⟩ [] :: post ∧
      (updatedDrink ⟨1, .str "water", "r"⟩ []).id = 1 ∧
      (([] : List (String × Json)).lookup "title" = none →
        (updatedDrink ⟨1, .str "water", "r"⟩ []).title = .str "water") ∧
      ((([] : List (String × Json)).lookup "recipe" = none ∨
          ([] : List (String × Json)).lookup "recipe" = some .null) →
        (updatedDrink ⟨1, .str "water", "r"⟩ []).recipe = "r") :=
  C9_patch_preserves_omitted_fields [⟨1, .str "water", "r"⟩]
    (some ⟨true, ["patch:drinks"]⟩) [] 1 ⟨1, .str "water", "r"⟩
    ⟨true, ["patch:drinks"]⟩ rfl rfl

/-- C10: Application startup is destructive: app.py unconditionally calls
db_drop_and_create_all() at module initialization, so immediately after
startup the drinks table is empty no matter what it held before. -/
theorem C10_startup_empties_table (db : Table) :
    startupTable db = [] :=
  rfl

end CoffeeShop
